import Mathlib

/-!
Verification of the expo-apple-intelligence bridging layer.

The repository is a thin bridge over an opaque on-device model runtime.
We give a shallow embedding of its three components:

* the Swift Expo module (the capable-platform implementation), embedded as
  pure functions over an explicit `SwiftPlatform` (whether FoundationModels
  is importable and the OS version check passes, the model availability,
  and the runtime response oracle) and an explicit session registry;
* the Android stub (the non-capable-platform implementation);
* the TypeScript layer (`AppleIntelligence.ts`), embedded as functions over
  a `JSEnv` holding an optional bridge; async rejection is modelled by
  `Except String`.
-/

namespace ExpoAI

/-- The `AvailabilityStatus` record of `AppleIntelligence.ts` (also the shape
of the dictionaries returned by the Swift and Kotlin modules). -/
structure AvailabilityStatus where
  status : String
  isAvailable : Bool
  reason : Option String
  message : String
deriving Repr, DecidableEq

/-- The `GenerateResponseResult` record of `AppleIntelligence.ts` (the
GenerationResult of the spec): optional fields are `Option`s, an absent
field is `none`. -/
structure GenerateResponseResult where
  success : Bool
  response : Option String
  error : Option String
deriving Repr, DecidableEq

/-- The availability cases of `SystemLanguageModel.default.availability` as
matched by the Swift module: `.available`, `.unavailable(reason)`, and the
`@unknown default` case. -/
inductive ModelAvailability where
  | available
  | unavailable (reason : String)
  | unknownDefault
deriving Repr, DecidableEq

/-- `SystemLanguageModel.isAvailable`: true exactly on `.available`. -/
def ModelAvailability.isAvail : ModelAvailability → Bool
  | .available => true
  | _ => false

/-- A `LanguageModelSession` is opaque conversational state owned by the
runtime; we model it by its transcript, the list of prompts sent to it.
A freshly constructed session has transcript `[]`. -/
abbrev SessionHandle := List String

/-- The `SessionStore.shared.sessions` dictionary: an association list from
session identifier to its handle. -/
abbrev Registry := List (String × SessionHandle)

/-- Dictionary lookup `sessions[sessionId]`. -/
def lookupReg : Registry → String → Option SessionHandle
  | [], _ => none
  | (k2, v) :: rest, k => if k2 = k then some v else lookupReg rest k

/-- Dictionary assignment `sessions[sessionId] = handle` for a key that is
already present: replaces the value stored under the key, keeping the key
set unchanged. -/
def updateReg : Registry → String → SessionHandle → Registry
  | [], _, _ => []
  | e :: rest, k, v => (if e.1 = k then (k, v) else e) :: updateReg rest k v

/-- `sessions.removeValue(forKey:)`. -/
def removeReg (reg : Registry) (k : String) : Registry :=
  reg.filter (fun e => e.1 ≠ k)

/-- The set (list) of registered session identifiers. -/
def keysOf (reg : Registry) : List String :=
  reg.map Prod.fst

/-- The platform state the Swift module runs against: whether the
FoundationModels framework is importable and the `#available` iOS 26 check
passes (combined in one flag, since the module always tests them together),
the model availability, and the runtime oracle. `respond transcript prompt`
is the outcome of `session.respond(to: prompt)` on a session whose
transcript is `transcript`: the generated content, or a thrown error. -/
structure SwiftPlatform where
  fmSupported : Bool
  avail : ModelAvailability
  respond : List String → String → Except String String

/-- Swift `AsyncFunction("isAvailable")`. -/
def swift_isAvailable (p : SwiftPlatform) : Bool :=
  p.fmSupported && p.avail.isAvail

/-- Swift `AsyncFunction("getAvailabilityStatus")`. -/
def swift_getAvailabilityStatus (p : SwiftPlatform) : AvailabilityStatus :=
  if p.fmSupported then
    match p.avail with
    | .available =>
        { status := "available", isAvailable := true, reason := none,
          message := "Apple Intelligence is ready to use" }
    | .unavailable r =>
        { status := "unavailable", isAvailable := false, reason := some r,
          message := "Apple Intelligence is not available: " ++ r }
    | .unknownDefault =>
        { status := "unknown", isAvailable := false, reason := none,
          message := "Unknown availability status" }
  else
    { status := "unsupported", isAvailable := false, reason := none,
      message := "This iOS version does not support Foundation Models (requires iOS 26+)" }

/-- Swift `AsyncFunction("generateResponse")`: creates a throwaway session
(empty transcript) and asks the runtime once. -/
def swift_generateResponse (p : SwiftPlatform) (prompt : String) : GenerateResponseResult :=
  if p.fmSupported then
    if p.avail.isAvail then
      match p.respond [] prompt with
      | .ok content => { success := true, response := some content, error := none }
      | .error e => { success := false, response := none, error := some e }
    else
      { success := false, response := none,
        error := some "Apple Intelligence is not available on this device" }
  else
    { success := false, response := none,
      error := some "Foundation Models framework is not available (requires iOS 26+)" }

/-- The first turn sent when a session is created with a system prompt:
the Swift module sends the interpolation `"System: \(systemPrompt)"`. -/
def seedTurn (systemPrompt : String) : String :=
  "System: " ++ systemPrompt

/-- Swift `AsyncFunction("createSession")`. `fid` is the fresh identifier
produced by `UUID().uuidString`. Returns the settled value (identifier or
thrown error) together with the registry after the call; in the source the
store insertion happens only after the optional seeding turn succeeds. -/
def swift_createSession (p : SwiftPlatform) (reg : Registry) (fid : String)
    (systemPrompt : Option String) : Except String String × Registry :=
  if p.fmSupported then
    if p.avail.isAvail then
      match systemPrompt with
      | some sp =>
          if sp.isEmpty then
            (.ok fid, (fid, ([] : SessionHandle)) :: reg)
          else
            match p.respond [] (seedTurn sp) with
            | .ok _ => (.ok fid, (fid, [seedTurn sp]) :: reg)
            | .error e => (.error e, reg)
      | none => (.ok fid, (fid, ([] : SessionHandle)) :: reg)
    else
      (.error "Apple Intelligence is not available", reg)
  else
    (.error "Foundation Models not available", reg)

/-- Swift `AsyncFunction("sendSessionMessage")`: looks the handle up, and on
a hit forwards the message to the runtime, growing the transcript on
success. Returns the result together with the registry after the call. -/
def swift_sendSessionMessage (p : SwiftPlatform) (reg : Registry)
    (sessionId message : String) : GenerateResponseResult × Registry :=
  if p.fmSupported then
    match lookupReg reg sessionId with
    | none =>
        ({ success := false, response := none,
           error := some "Session not found. Create a new session first." }, reg)
    | some h =>
        match p.respond h message with
        | .ok content =>
            ({ success := true, response := some content, error := none },
             updateReg reg sessionId (h ++ [message]))
        | .error e =>
            ({ success := false, response := none, error := some e }, reg)
  else
    ({ success := false, response := none,
       error := some "Foundation Models not available" }, reg)

/-- Swift `AsyncFunction("resetSession")`: if the identifier is registered,
store a brand-new (empty-transcript) session under it; otherwise do
nothing. -/
def swift_resetSession (p : SwiftPlatform) (reg : Registry) (sessionId : String) : Registry :=
  if p.fmSupported then
    match lookupReg reg sessionId with
    | some _ => updateReg reg sessionId []
    | none => reg
  else
    reg

/-- Swift `AsyncFunction("endSession")`. -/
def swift_endSession (p : SwiftPlatform) (reg : Registry) (sessionId : String) : Registry :=
  if p.fmSupported then removeReg reg sessionId else reg

/-! The Android stub (`AppleIntelligenceModule.kt`). -/

/-- Kotlin `AsyncFunction("isAvailable")`. -/
def android_isAvailable : Bool := false

/-- Kotlin `AsyncFunction("getAvailabilityStatus")`. -/
def android_getAvailabilityStatus : AvailabilityStatus :=
  { status := "unsupported", isAvailable := false, reason := none,
    message := "Apple Intelligence is only available on iOS devices" }

/-- Kotlin `AsyncFunction("generateResponse")`. -/
def android_generateResponse (_prompt : String) : GenerateResponseResult :=
  { success := false, response := none,
    error := some "Apple Intelligence is only available on iOS devices" }

/-- Kotlin `AsyncFunction("createSession")`: unconditionally throws. -/
def android_createSession (_systemPrompt : Option String) : Except String String :=
  .error "Apple Intelligence is only available on iOS devices"

/-- Kotlin `AsyncFunction("sendSessionMessage")`. -/
def android_sendSessionMessage (_sessionId _message : String) : GenerateResponseResult :=
  { success := false, response := none,
    error := some "Apple Intelligence is only available on iOS devices" }

/-- Kotlin `AsyncFunction("resetSession")`: a no-op. -/
def android_resetSession (reg : Registry) (_sessionId : String) : Registry :=
  reg

/-- The names passed to `AsyncFunction(...)` in the Kotlin stub, in source
order. The stub registers no other functions. -/
def androidStubFunctions : List String :=
  ["isAvailable", "getAvailabilityStatus", "generateResponse",
   "createSession", "sendSessionMessage", "resetSession"]

/-- The names passed to `AsyncFunction(...)` in the Swift module, in source
order. -/
def swiftModuleFunctions : List String :=
  ["isAvailable", "getAvailabilityStatus", "generateResponse",
   "createSession", "sendSessionMessage", "resetSession", "endSession"]

/-- The downward (platform-facing) operations of the collaborator contract
in section 6 of the spec, every one of which a non-capable stub must also
implement. -/
def downwardOperations : List String :=
  ["isAvailable", "getAvailabilityStatus", "generateResponse",
   "createSession", "sendSessionMessage", "resetSession", "endSession"]

/-! The TypeScript layer (`AppleIntelligence.ts`). The native module is a
record of methods, each of which may resolve or reject; `Except String`
models rejection. -/

/-- The methods of `AppleIntelligenceModuleType` that the TypeScript entry
points in `AppleIntelligence.ts` call. Each holds the settled outcome of
awaiting that native call. -/
structure Bridge where
  isAvailable : Except String Bool
  getAvailabilityStatus : Except String AvailabilityStatus
  generateResponse : String → Except String GenerateResponseResult
  createSession : Option String → Except String String

/-- The module-scope state of `AppleIntelligence.ts`: `bridge = none` models
`isModuleAvailable = false` (native module absent or exporting no
`isAvailable` function), and `moduleLoadError` the load error, if any,
captured when the module first loads. -/
structure JSEnv where
  bridge : Option Bridge
  moduleLoadError : Option String

/-- TypeScript `isAvailable()`. The source returns `false` when the module
is unavailable and catches every rejection of the native call, so the
embedded function shows explicitly which branches resolve. -/
def ts_isAvailable (env : JSEnv) : Except String Bool :=
  match env.bridge with
  | none => .ok false
  | some b =>
      match b.isAvailable with
      | .ok v => .ok v
      | .error _ => .ok false

/-- TypeScript `getAvailabilityStatus()`. -/
def ts_getAvailabilityStatus (env : JSEnv) : AvailabilityStatus :=
  match env.bridge with
  | none =>
      { status := "unsupported", isAvailable := false, reason := none,
        message :=
          match env.moduleLoadError with
          | some e => "Native module failed to load: " ++ e
          | none => "Apple Intelligence is only available on iOS 26+ devices" }
  | some b =>
      match b.getAvailabilityStatus with
      | .ok s => s
      | .error e =>
          { status := "unknown", isAvailable := false, reason := none,
            message := "Error checking availability: " ++ e }

/-- TypeScript `generateResponse(prompt)`. The prompt is `Option String` so
that a `null` argument (allowed by the untyped caller the validation guards
against) is representable; `none` is `null`. The second component records
whether the native module was called. The source checks module
availability first, then the prompt, and only then contacts the bridge. -/
def ts_generateResponse (env : JSEnv) (prompt : Option String) :
    GenerateResponseResult × Bool :=
  match env.bridge with
  | none =>
      ({ success := false, response := none,
         error := some "Apple Intelligence is not available on this device" }, false)
  | some b =>
      match prompt with
      | none =>
          ({ success := false, response := none,
             error := some "Prompt must be a non-empty string" }, false)
      | some s =>
          if s.isEmpty then
            ({ success := false, response := none,
               error := some "Prompt must be a non-empty string" }, false)
          else
            match b.generateResponse s with
            | .ok r => (r, true)
            | .error e =>
                ({ success := false, response := none, error := some e }, true)

/-- TypeScript `createSession(options)`: throws when the module is absent,
and rewraps any rejection of the native call into a thrown
`Failed to create session` error; on success the returned Session object
carries the identifier. -/
def ts_createSession (env : JSEnv) (systemPrompt : Option String) :
    Except String String :=
  match env.bridge with
  | none => .error "Apple Intelligence is not available on this device"
  | some b =>
      match b.createSession systemPrompt with
      | .ok sid => .ok sid
      | .error e => .error ("Failed to create session: " ++ e)

/-! Reachable platform states of the whole system, used to quantify the
claims that range over every platform state. -/

/-- A bridge whose every method rejects with `e`: the platform query
throwing. -/
def throwingBridgeImpl (e : String) : Bridge :=
  { isAvailable := .error e
  , getAvailabilityStatus := .error e
  , generateResponse := fun _ => .error e
  , createSession := fun _ => .error e }

/-- The bridge backed by the Swift module, at a platform `p`, registry
snapshot `reg` and fresh identifier `fid`. -/
def bridgeOfSwift (p : SwiftPlatform) (reg : Registry) (fid : String) : Bridge :=
  { isAvailable := .ok (swift_isAvailable p)
  , getAvailabilityStatus := .ok (swift_getAvailabilityStatus p)
  , generateResponse := fun s => .ok (swift_generateResponse p s)
  , createSession := fun sp => (swift_createSession p reg fid sp).1 }

/-- The bridge backed by the Android stub. -/
def androidBridgeImpl : Bridge :=
  { isAvailable := .ok android_isAvailable
  , getAvailabilityStatus := .ok android_getAvailabilityStatus
  , generateResponse := fun s => .ok (android_generateResponse s)
  , createSession := android_createSession }

/-- The reachable platform states seen by the TypeScript layer: the bridge
failed to load (with an optional captured load error), the bridge loaded
but its calls throw, the Swift module on some platform, or the Android
stub. -/
inductive PlatformState where
  | absentBridge (loadError : Option String)
  | throwingBridge (e : String)
  | swiftBridge (p : SwiftPlatform) (reg : Registry) (fid : String)
  | androidStub

/-- The TypeScript module state induced by a platform state. -/
def envOf : PlatformState → JSEnv
  | .absentBridge le => { bridge := none, moduleLoadError := le }
  | .throwingBridge e => { bridge := some (throwingBridgeImpl e), moduleLoadError := none }
  | .swiftBridge p reg fid =>
      { bridge := some (bridgeOfSwift p reg fid), moduleLoadError := none }
  | .androidStub => { bridge := some androidBridgeImpl, moduleLoadError := none }

/-! Invariant predicates and concrete platforms used as witnesses. -/

/-- The AvailabilityStatus invariant: the convenience flag is true exactly
when the status field is the string for availability. -/
def statusConsistent (s : AvailabilityStatus) : Prop :=
  s.isAvailable = (s.status == "available")

/-- The GenerationResult invariant: the response field is populated exactly
when the result is tagged successful, and the error field exactly when it
is not. -/
def wfResult (r : GenerateResponseResult) : Prop :=
  r.response.isSome = r.success ∧ r.error.isSome = !r.success

/-- A capable, available platform whose runtime echoes the prompt. -/
def okPlatform : SwiftPlatform :=
  { fmSupported := true, avail := .available
  , respond := fun _ m => .ok ("ok:" ++ m) }

/-- A capable platform whose model reports not ready. -/
def unavailPlatform : SwiftPlatform :=
  { fmSupported := true, avail := .unavailable "modelNotReady"
  , respond := fun _ _ => .error "unavailable" }

/-- An available platform whose runtime throws on every request. -/
def failPlatform : SwiftPlatform :=
  { fmSupported := true, avail := .available
  , respond := fun _ _ => .error "generation failed" }

/-- The validation `!prompt || typeof prompt !== 'string'` of the source, on
the `Option String` domain: true on null and on the empty string. -/
def promptInvalid : Option String → Bool
  | none => true
  | some s => s.isEmpty

/-! Association-list lemmas about the session registry. -/

/-- Unfolding equation of `lookupReg` on a cons cell. -/
theorem lookupReg_cons (ka : String) (va : SessionHandle) (rest : Registry) (k : String) :
    lookupReg ((ka, va) :: rest) k = if ka = k then some va else lookupReg rest k := rfl

/-- Unfolding equation of `updateReg` on a cons cell. -/
theorem updateReg_cons (ka : String) (va v : SessionHandle) (rest : Registry) (k : String) :
    updateReg ((ka, va) :: rest) k v
      = (if ka = k then (k, v) else (ka, va)) :: updateReg rest k v := rfl

/-- Replacing the value stored under a key keeps the key list unchanged. -/
theorem keysOf_updateReg (reg : Registry) (k : String) (v : SessionHandle) :
    keysOf (updateReg reg k v) = keysOf reg := by
  induction reg with
  | nil => rfl
  | cons e rest ih =>
      obtain ⟨ka, va⟩ := e
      rw [updateReg_cons]
      by_cases he : ka = k
      · rw [if_pos he]
        show k :: keysOf (updateReg rest k v) = ka :: keysOf rest
        rw [ih, he]
      · rw [if_neg he]
        show ka :: keysOf (updateReg rest k v) = ka :: keysOf rest
        rw [ih]

/-- Looking up a key that was present after updating it yields the new
value. -/
theorem lookupReg_updateReg_self (reg : Registry) (k : String) (v : SessionHandle)
    (hl : (lookupReg reg k).isSome = true) :
    lookupReg (updateReg reg k v) k = some v := by
  induction reg with
  | nil => simp [lookupReg] at hl
  | cons e rest ih =>
      obtain ⟨ka, va⟩ := e
      rw [updateReg_cons]
      by_cases he : ka = k
      · rw [if_pos he, lookupReg_cons, if_pos rfl]
      · rw [if_neg he, lookupReg_cons, if_neg he]
        rw [lookupReg_cons, if_neg he] at hl
        exact ih hl

/-- Updating one key leaves lookups of every other key unchanged. -/
theorem lookupReg_updateReg_ne (reg : Registry) (k k2 : String) (v : SessionHandle)
    (hne : k2 ≠ k) : lookupReg (updateReg reg k v) k2 = lookupReg reg k2 := by
  induction reg with
  | nil => rfl
  | cons e rest ih =>
      obtain ⟨ka, va⟩ := e
      rw [updateReg_cons]
      by_cases he : ka = k
      · subst he
        rw [if_pos rfl, lookupReg_cons, if_neg (Ne.symm hne),
            lookupReg_cons, if_neg (Ne.symm hne)]
        exact ih
      · rw [if_neg he, lookupReg_cons, lookupReg_cons]
        by_cases h2 : ka = k2
        · rw [if_pos h2, if_pos h2]
        · rw [if_neg h2, if_neg h2]
          exact ih

/-! The claims. -/

/-- Claim C1: for every platform state, including the native bridge being
entirely absent or the platform query throwing, the public isAvailable
operation resolves to a boolean (false on any failure) and never rejects or
propagates an exception to the caller. -/
theorem claim_C1 :
    (∀ env : JSEnv, ∃ b : Bool, ts_isAvailable env = .ok b)
  ∧ (∀ le, ts_isAvailable (envOf (.absentBridge le)) = .ok false)
  ∧ (∀ e, ts_isAvailable (envOf (.throwingBridge e)) = .ok false) := by
  refine ⟨?_, ?_, ?_⟩
  · intro env
    obtain ⟨ob, le⟩ := env
    cases ob with
    | none => exact ⟨false, rfl⟩
    | some b =>
        cases hb : b.isAvailable with
        | ok v => exact ⟨v, by simp [ts_isAvailable, hb]⟩
        | error e => exact ⟨false, by simp [ts_isAvailable, hb]⟩
  · intro le; rfl
  · intro e; rfl

/-- Claim C2: every AvailabilityStatus returned by getAvailabilityStatus,
from any reachable platform state and on both the capable (Swift) and stub
(Android) implementations, has its isAvailable field true exactly when its
status field is the available status. -/
theorem claim_C2 :
    (∀ st : PlatformState, statusConsistent (ts_getAvailabilityStatus (envOf st)))
  ∧ (∀ p : SwiftPlatform, statusConsistent (swift_getAvailabilityStatus p))
  ∧ statusConsistent android_getAvailabilityStatus := by
  have hsw : ∀ p : SwiftPlatform, statusConsistent (swift_getAvailabilityStatus p) := by
    intro p
    unfold statusConsistent
    cases hf : p.fmSupported <;> cases hp : p.avail <;>
      simp [swift_getAvailabilityStatus, hf, hp]
  refine ⟨?_, hsw, by unfold statusConsistent; decide⟩
  intro st
  unfold statusConsistent
  cases st with
  | absentBridge le =>
      simp [ts_getAvailabilityStatus, envOf]
  | throwingBridge e =>
      simp [ts_getAvailabilityStatus, envOf, throwingBridgeImpl]
  | swiftBridge p reg fid =>
      simpa [ts_getAvailabilityStatus, envOf, bridgeOfSwift, statusConsistent] using hsw p
  | androidStub =>
      simp [ts_getAvailabilityStatus, envOf, androidBridgeImpl]
      decide

/-- Claim C3, counterexample: with the native bridge absent, the empty
prompt does not produce the prompt-validation error; the module
availability check fires first and yields the unavailability error. -/
theorem claim_C3_counterexample :
    (ts_generateResponse (envOf (.absentBridge none)) (some "")).1
      ≠ { success := false, response := none,
          error := some "Prompt must be a non-empty string" } := by
  decide

/-- Claim C3, amended: when the native bridge is present, generateResponse
on the empty string or on null resolves to the prompt-validation failure
result without calling the platform; when the bridge is absent, it resolves
(still locally, still without a platform call) to the unavailability
failure result instead. -/
theorem claim_C3 (env : JSEnv) (prompt : Option String) :
    (∀ b, env.bridge = some b → promptInvalid prompt = true →
        ts_generateResponse env prompt
          = ({ success := false, response := none,
               error := some "Prompt must be a non-empty string" }, false))
  ∧ (env.bridge = none →
        ts_generateResponse env prompt
          = ({ success := false, response := none,
               error := some "Apple Intelligence is not available on this device" },
             false)) := by
  obtain ⟨ob, le⟩ := env
  constructor
  · intro b hb hp
    cases ob with
    | none => exact Option.noConfusion hb
    | some b2 =>
        cases prompt with
        | none => simp [ts_generateResponse]
        | some s =>
            have hs : s.isEmpty = true := hp
            simp [ts_generateResponse, hs]
  · intro hb
    cases ob with
    | some b2 => exact Option.noConfusion hb
    | none => simp [ts_generateResponse]

/-- Claim C3, witness for the amended statement at concrete inputs. -/
theorem claim_C3_witness :
    ts_generateResponse (envOf .androidStub) (some "")
      = ({ success := false, response := none,
           error := some "Prompt must be a non-empty string" }, false)
  ∧ ts_generateResponse (envOf (.absentBridge none)) none
      = ({ success := false, response := none,
           error := some "Apple Intelligence is not available on this device" },
         false) :=
  ⟨(claim_C3 (envOf .androidStub) (some "")).1 androidBridgeImpl rfl (by decide),
   (claim_C3 (envOf (.absentBridge none)) none).2 rfl⟩

/-- Claim C4: on a FoundationModels-capable platform, sendSessionMessage on
any identifier absent from the registry resolves to the structured
session-not-found failure result and leaves the registry unchanged; it
never throws. -/
theorem claim_C4 (p : SwiftPlatform) (reg : Registry) (sessionId message : String)
    (hfm : p.fmSupported = true) (habs : lookupReg reg sessionId = none) :
    swift_sendSessionMessage p reg sessionId message
      = ({ success := false, response := none,
           error := some "Session not found. Create a new session first." }, reg) := by
  simp [swift_sendSessionMessage, hfm, habs]

/-- Claim C4, witness: a never-created identifier on an available
platform. -/
theorem claim_C4_witness :
    swift_sendSessionMessage okPlatform [] "missing" "hello"
      = ({ success := false, response := none,
           error := some "Session not found. Create a new session first." }, []) :=
  claim_C4 okPlatform [] "missing" "hello" rfl rfl

/-- Claim C5: resetSession leaves the set of registered identifiers
unchanged; on an unregistered identifier it is a silent no-op, and on a
capable platform a registered identifier gets a brand-new empty handle
under the same identifier while every other entry is untouched. -/
theorem claim_C5 (p : SwiftPlatform) (reg : Registry) (sessionId : String) :
    keysOf (swift_resetSession p reg sessionId) = keysOf reg
  ∧ (lookupReg reg sessionId = none → swift_resetSession p reg sessionId = reg)
  ∧ (p.fmSupported = true → (lookupReg reg sessionId).isSome = true →
       lookupReg (swift_resetSession p reg sessionId) sessionId = some []
     ∧ ∀ sid2, sid2 ≠ sessionId →
         lookupReg (swift_resetSession p reg sessionId) sid2 = lookupReg reg sid2) := by
  refine ⟨?_, ?_, ?_⟩
  · cases hf : p.fmSupported
    · simp [swift_resetSession, hf]
    · cases hl : lookupReg reg sessionId with
      | none => simp [swift_resetSession, hf, hl]
      | some h => simp [swift_resetSession, hf, hl, keysOf_updateReg]
  · intro hl
    cases hf : p.fmSupported <;> simp [swift_resetSession, hf, hl]
  · intro hfm hsome
    cases hl : lookupReg reg sessionId with
    | none => rw [hl] at hsome; simp at hsome
    | some h =>
        constructor
        · simp only [swift_resetSession, hfm, if_true, hl]
          exact lookupReg_updateReg_self reg sessionId [] (by simp [hl])
        · intro sid2 hne
          simp only [swift_resetSession, hfm, if_true, hl]
          exact lookupReg_updateReg_ne reg sessionId sid2 [] hne

/-- Claim C5, witness: reset of a registered session empties its handle and
keeps the key set; reset of an unknown identifier is a no-op. -/
theorem claim_C5_witness :
    keysOf (swift_resetSession okPlatform [("s1", ["m1"])] "s1")
        = keysOf [("s1", ["m1"])]
  ∧ lookupReg (swift_resetSession okPlatform [("s1", ["m1"])] "s1") "s1" = some []
  ∧ swift_resetSession okPlatform [("s1", ["m1"])] "s2" = [("s1", ["m1"])] :=
  ⟨(claim_C5 okPlatform [("s1", ["m1"])] "s1").1,
   ((claim_C5 okPlatform [("s1", ["m1"])] "s1").2.2 rfl (by decide)).1,
   (claim_C5 okPlatform [("s1", ["m1"])] "s2").2.1 (by decide)⟩

/-- Claim C6, code-bug evidence: the downward collaborator contract lists
endSession among the operations every stub must implement, and the Swift
module does register it, but the Android stub registers no endSession
function, while its six registered functions do return the fixed
unsupported-platform answers. -/
theorem claim_C6 :
    "endSession" ∈ downwardOperations
  ∧ "endSession" ∈ swiftModuleFunctions
  ∧ "endSession" ∉ androidStubFunctions
  ∧ android_isAvailable = false
  ∧ android_getAvailabilityStatus.status = "unsupported"
  ∧ android_generateResponse "hi"
      = { success := false, response := none,
          error := some "Apple Intelligence is only available on iOS devices" }
  ∧ android_createSession none
      = .error "Apple Intelligence is only available on iOS devices"
  ∧ (android_sendSessionMessage "s" "m").success = false
  ∧ (∀ reg sid, android_resetSession reg sid = reg) := by
  refine ⟨by decide, by decide, by decide, rfl, rfl, by decide, rfl, rfl, ?_⟩
  intro reg sid
  rfl

/-- Claim C7: when the platform model service is unavailable (bridge absent
or model not ready), createSession fails by rejecting with an error rather
than resolving to a result value, while the other generation-style calls
resolve and communicate failure only through the success tag of the
result. -/
theorem claim_C7 :
    (∀ le sp, ∃ e, ts_createSession (envOf (.absentBridge le)) sp = .error e)
  ∧ (∀ p reg fid sp, swift_isAvailable p = false →
       ∃ e, (swift_createSession p reg fid sp).1 = .error e)
  ∧ (∀ p reg fid sp, swift_isAvailable p = false →
       ∃ e, ts_createSession (envOf (.swiftBridge p reg fid)) sp = .error e)
  ∧ (∀ p prompt, swift_isAvailable p = false →
       (swift_generateResponse p prompt).success = false)
  ∧ (∀ p reg sid msg, swift_isAvailable p = false → lookupReg reg sid = none →
       (swift_sendSessionMessage p reg sid msg).1.success = false) := by
  have hcs : ∀ (p : SwiftPlatform) (reg : Registry) (fid : String) (sp : Option String),
      swift_isAvailable p = false →
      ∃ e, (swift_createSession p reg fid sp).1 = .error e := by
    intro p reg fid sp hun
    cases hf : p.fmSupported
    · exact ⟨"Foundation Models not available", by simp [swift_createSession, hf]⟩
    · have ha : p.avail.isAvail = false := by
        have h3 : (p.fmSupported && p.avail.isAvail) = false := hun
        rw [hf] at h3
        simpa using h3
      exact ⟨"Apple Intelligence is not available", by simp [swift_createSession, hf, ha]⟩
  refine ⟨?_, hcs, ?_, ?_, ?_⟩
  · intro le sp
    exact ⟨"Apple Intelligence is not available on this device", rfl⟩
  · intro p reg fid sp hun
    obtain ⟨e, he⟩ := hcs p reg fid sp hun
    refine ⟨"Failed to create session: " ++ e, ?_⟩
    simp [ts_createSession, envOf, bridgeOfSwift, he]
  · intro p prompt hun
    cases hf : p.fmSupported
    · simp [swift_generateResponse, hf]
    · have ha : p.avail.isAvail = false := by
        have h3 : (p.fmSupported && p.avail.isAvail) = false := hun
        rw [hf] at h3
        simpa using h3
      simp [swift_generateResponse, hf, ha]
  · intro p reg sid msg hun habs
    cases hf : p.fmSupported
    · simp [swift_sendSessionMessage, hf]
    · simp [swift_sendSessionMessage, hf, habs]

/-- Claim C7, witness at a platform whose model reports not ready. -/
theorem claim_C7_witness :
    (∃ e, ts_createSession (envOf (.absentBridge none)) none = .error e)
  ∧ (∃ e, (swift_createSession unavailPlatform [] "id1" (some "ctx")).1 = .error e)
  ∧ (∃ e, ts_createSession (envOf (.swiftBridge unavailPlatform [] "id1")) (some "ctx")
        = .error e)
  ∧ (swift_generateResponse unavailPlatform "hi").success = false
  ∧ (swift_sendSessionMessage unavailPlatform [] "s" "hi").1.success = false :=
  ⟨claim_C7.1 none none,
   claim_C7.2.1 unavailPlatform [] "id1" (some "ctx") rfl,
   claim_C7.2.2.1 unavailPlatform [] "id1" (some "ctx") rfl,
   claim_C7.2.2.2.1 unavailPlatform "hi" rfl,
   claim_C7.2.2.2.2 unavailPlatform [] "s" "hi" rfl rfl⟩

/-- Claim C8: every GenerationResult produced by generateResponse or
sendSessionMessage — at the Swift module and at the TypeScript layer over
every reachable platform state — populates the response field exactly when
success is true and the error field exactly when success is false, never
both. -/
theorem claim_C8 :
    (∀ p prompt, wfResult (swift_generateResponse p prompt))
  ∧ (∀ p reg sid msg, wfResult (swift_sendSessionMessage p reg sid msg).1)
  ∧ (∀ (st : PlatformState) (prompt : Option String),
       wfResult (ts_generateResponse (envOf st) prompt).1) := by
  have hg : ∀ p prompt, wfResult (swift_generateResponse p prompt) := by
    intro p prompt
    unfold swift_generateResponse
    cases hf : p.fmSupported
    · simp [wfResult]
    · cases ha : p.avail.isAvail
      · simp [wfResult]
      · cases hr : p.respond [] prompt <;> simp [wfResult, hr]
  refine ⟨hg, ?_, ?_⟩
  · intro p reg sid msg
    unfold swift_sendSessionMessage
    cases hf : p.fmSupported
    · simp [wfResult]
    · cases hl : lookupReg reg sid with
      | none => simp [wfResult]
      | some h => cases hr : p.respond h msg <;> simp [wfResult, hr]
  · intro st prompt
    cases st with
    | absentBridge le =>
        simp [ts_generateResponse, envOf, wfResult]
    | throwingBridge e =>
        cases prompt with
        | none => simp [ts_generateResponse, envOf, throwingBridgeImpl, wfResult]
        | some s =>
            cases hs : s.isEmpty <;>
              simp [ts_generateResponse, envOf, throwingBridgeImpl, wfResult, hs]
    | swiftBridge p reg fid =>
        cases prompt with
        | none => simp [ts_generateResponse, envOf, bridgeOfSwift, wfResult]
        | some s =>
            cases hs : s.isEmpty
            · simpa [ts_generateResponse, envOf, bridgeOfSwift, hs] using hg p s
            · simp [ts_generateResponse, envOf, bridgeOfSwift, wfResult, hs]
    | androidStub =>
        cases prompt with
        | none => simp [ts_generateResponse, envOf, androidBridgeImpl, wfResult]
        | some s =>
            cases hs : s.isEmpty <;>
              simp [ts_generateResponse, envOf, androidBridgeImpl,
                    android_generateResponse, wfResult, hs]

/-- Claim C9: on an available platform, createSession with a non-empty
system prompt returns the freshly generated identifier and registers under
it a handle obtained new from the runtime whose transcript already holds
the seeding turn (the System-prefixed system prompt) when control returns
to the caller; with no system prompt, or an empty one, the registered
handle holds no seeding turn. -/
theorem claim_C9 (p : SwiftPlatform) (reg : Registry) (fid sp c : String)
    (hava : swift_isAvailable p = true) :
    (sp.isEmpty = false → p.respond [] (seedTurn sp) = .ok c →
       swift_createSession p reg fid (some sp)
         = (.ok fid, (fid, [seedTurn sp]) :: reg))
  ∧ swift_createSession p reg fid none = (.ok fid, (fid, []) :: reg)
  ∧ swift_createSession p reg fid (some "") = (.ok fid, (fid, []) :: reg) := by
  have h3 : (p.fmSupported && p.avail.isAvail) = true := hava
  simp only [Bool.and_eq_true] at h3
  obtain ⟨hf, ha⟩ := h3
  refine ⟨?_, ?_, ?_⟩
  · intro hne hresp
    simp [swift_createSession, hf, ha, hne, hresp]
  · simp [swift_createSession, hf, ha]
  · simp [swift_createSession, hf, ha, String.isEmpty]

/-- Claim C9, witness: seeding with a concrete system prompt on the echo
platform, and creating with no system prompt. -/
theorem claim_C9_witness :
    swift_createSession okPlatform [] "fresh-id" (some "coach")
      = (.ok "fresh-id", [("fresh-id", [seedTurn "coach"])])
  ∧ swift_createSession okPlatform [] "fresh-id" none
      = (.ok "fresh-id", [("fresh-id", [])]) :=
  ⟨(claim_C9 okPlatform [] "fresh-id" "coach" "ok:System: coach" rfl).1
      (by decide) rfl,
   (claim_C9 okPlatform [] "fresh-id" "coach" "ok:System: coach" rfl).2.1⟩

/-- Claim C10: createSession is atomic with respect to the registry: if the
seeding turn for the supplied system prompt throws, the call rejects with
that error and the registry is returned unchanged, so no identifier is left
mapping to a partially initialized handle. -/
theorem claim_C10 (p : SwiftPlatform) (reg : Registry) (fid sp e : String)
    (hava : swift_isAvailable p = true) (hne : sp.isEmpty = false)
    (hresp : p.respond [] (seedTurn sp) = .error e) :
    swift_createSession p reg fid (some sp) = (.error e, reg) := by
  have h3 : (p.fmSupported && p.avail.isAvail) = true := hava
  simp only [Bool.and_eq_true] at h3
  obtain ⟨hf, ha⟩ := h3
  simp [swift_createSession, hf, ha, hne, hresp]

/-- Claim C10, witness: a platform whose runtime throws on the seeding
turn. -/
theorem claim_C10_witness :
    swift_createSession failPlatform [] "id9" (some "ctx")
      = (.error "generation failed", []) :=
  claim_C10 failPlatform [] "id9" "ctx" "generation failed" rfl (by decide) rfl

end ExpoAI
